import Mathlib

/-!
Verification of the Codebreaker game-state logic.

This file gives a shallow embedding of the game logic implemented in
`web_app/app.py`: the secret store, the per-user game states, and the four
public operations (`/api/game-state`, `/api/submit-guess`,
`/api/create-secret`, `/api/reset`), together with theorems about the
specified properties (lockout behaviour, secret rotation, guess matching,
store invariants).

Modelling decisions:
- Python strings are modelled as `List Char`; `str.strip()` strips the six
  ASCII whitespace characters Python strips; `str.lower()` maps
  `Char.toLower` over the characters.
- MongoDB timestamps are modelled as natural numbers; `timedelta(hours=24)`
  becomes the constant `LOCKOUT_SECONDS = 86400`.
- The `secrets` collection is a list of `Secret` records (insertion order);
  `find_one({solved_at: None}, sort=[("created_at", ASCENDING)])` picks an
  unsolved record of minimal `created_at` (first inserted on ties);
  `update_one` updates the first matching record.
- The `game_states` collection has a unique index on `user_uuid` (created in
  the code), so it is modelled as a map `Nat → Option GameState`.
- UUIDs are modelled by a fresh-id counter `nextId` threaded through the
  store; only freshness/uniqueness of the ids matters to the logic.
- Bookkeeping-only fields (`created_at`/`updated_at` on game states) and the
  database-unavailable fallback paths (`db is None`) are not modelled; the
  claims under study are about the behaviour with a working store.
-/

namespace Codebreaker

/-- Python strings as lists of characters. -/
abbrev Str := List Char

/-- The six characters `str.strip()` removes: space, tab, LF, CR, VT, FF. -/
def isPySpace (c : Char) : Bool :=
  c == ' ' || c == '\t' || c == '\n' || c == '\r' || c == '\x0b' || c == '\x0c'

/-- Python `str.strip()`: drop leading and trailing whitespace. -/
def pyStrip (s : Str) : Str :=
  ((s.dropWhile isPySpace).reverse.dropWhile isPySpace).reverse

/-- Python `str.lower()` (character-wise lowering). -/
def pyLower (s : Str) : Str := s.map Char.toLower

/-- Value of the `last_result` field of a game state (`"correct"` /
`"incorrect"`; `none` models the JSON `null`). -/
inductive GuessResult
  | correct
  | incorrect
deriving DecidableEq, Repr

/-- One document of the `secrets` collection (see `create_default_secret` and
`create_new_secret` in `web_app/app.py`). -/
structure Secret where
  secret_id : Nat
  secret_phrase : Str
  hint : Str
  created_at : Nat
  created_by : Option Nat
  wrong_guesses : Nat
  solved_at : Option Nat
deriving DecidableEq, Repr

/-- One document of the `game_states` collection, keyed by `user_uuid`
(the key is kept outside the record, in the store map). -/
structure GameState where
  current_secret_id : Option Nat
  attempts_left : Nat
  last_result : Option GuessResult
  last_guess : Option Str
  can_create_secret : Bool
  locked_until : Option Nat
deriving DecidableEq, Repr

/-- The database: the `secrets` collection, the `game_states` collection
(unique index on the user id), and the fresh-uuid counter. -/
structure Store where
  secrets : List Secret
  states : Nat → Option GameState
  nextId : Nat

/-- The state dictionary returned by `get_or_create_state`. -/
structure EffState where
  attempts_left : Nat
  last_result : Option GuessResult
  last_guess : Option Str
  current_secret_id : Option Nat
  can_create_secret : Bool
  locked_until : Option Nat
deriving DecidableEq, Repr

/-- Response of the `/api/game-state` route: the resolved state plus the
active secret's `hint` and `secret_id` (the phrase is never included). -/
structure GameStateResponse where
  attempts_left : Nat
  last_result : Option GuessResult
  last_guess : Option Str
  current_secret_id : Option Nat
  can_create_secret : Bool
  locked_until : Option Nat
  hint : Str
  secret_id : Nat
deriving DecidableEq, Repr

/-- Outcome of the `/api/submit-guess` route (the `result` field of the JSON
response, plus the 503 no-active-secret error). -/
inductive Outcome
  | noActiveSecretErr
  | noAttempts
  | correct
  | incorrect
deriving DecidableEq, Repr

/-- Outcome of the `/api/create-secret` route: 403, 400, or the new id. -/
inductive RotateOutcome
  | permissionDenied
  | validationError
  | created (sid : Nat)
deriving DecidableEq, Repr

/-- Outcome of the `/api/reset` route. -/
inductive ResetOutcome
  | noActiveSecretErr
  | ok
deriving DecidableEq, Repr

/-- Constant `DEFAULT_SECRET_PHRASE` of `web_app/app.py`. -/
def DEFAULT_SECRET_PHRASE : Str := "Open Sesame".toList

/-- Constant `DEFAULT_SECRET_HINT` of `web_app/app.py`. -/
def DEFAULT_SECRET_HINT : Str := "A classic phrase to unlock a secret".toList

/-- The `timedelta(hours=24)` lockout window, in seconds. -/
def LOCKOUT_SECONDS : Nat := 24 * 60 * 60

/-- Function `get_active_secret`: `find_one({"solved_at": None},
sort=[("created_at", ASCENDING)])` — an unsolved secret of minimal
`created_at`, the earliest-inserted one on ties. -/
def getActiveSecret (secrets : List Secret) : Option Secret :=
  (secrets.filter fun s => s.solved_at.isNone).foldl
    (fun acc s =>
      match acc with
      | none => some s
      | some b => if s.created_at < b.created_at then some s else acc)
    none

/-- Point update of the game-state map. -/
def setState (user : Nat) (gs : GameState) (st : Store) : Store :=
  { st with states := fun u => if u = user then some gs else st.states u }

/-- Function `update_game_state`: `update_one({"user_uuid": user}, {"$set":
...}, upsert=True)`. `f` applies the `$set` fields to an existing document;
`ins` is the document an upsert-insert would produce, as later reads (with
their `.get` defaults) would see it. -/
def updateStateWith (user : Nat) (f : GameState → GameState) (ins : GameState)
    (st : Store) : Store :=
  match st.states user with
  | some gs => setState user (f gs) st
  | none => setState user ins st

/-- Helper for Mongo's `update_one` on the secrets collection: update the
first record satisfying the filter. -/
def updateFirstSecret (p : Secret → Bool) (f : Secret → Secret) :
    List Secret → List Secret
  | [] => []
  | s :: rest =>
      if p s then f s :: rest else s :: updateFirstSecret p f rest

/-- Function `mark_secret_solved`: set `solved_at` to the current time on the
secret with the given id. -/
def markSecretSolved (now sid : Nat) (secrets : List Secret) : List Secret :=
  updateFirstSecret (fun s => s.secret_id == sid)
    (fun s => { s with solved_at := some now }) secrets

/-- Function `increment_wrong_guesses`: `{"$inc": {"wrong_guesses": 1}}`. -/
def incrementWrongGuesses (sid : Nat) (secrets : List Secret) : List Secret :=
  updateFirstSecret (fun s => s.secret_id == sid)
    (fun s => { s with wrong_guesses := s.wrong_guesses + 1 }) secrets

/-- Function `create_default_secret`: if some unsolved secret exists
(unsorted `find_one({"solved_at": None})` — first in insertion order),
return it; otherwise insert and return the default secret. -/
def createDefaultSecretOp (now : Nat) (st : Store) : Secret × Store :=
  match (st.secrets.filter fun s => s.solved_at.isNone).head? with
  | some a => (a, st)
  | none =>
      let d : Secret :=
        ⟨st.nextId, DEFAULT_SECRET_PHRASE, DEFAULT_SECRET_HINT, now, none, 0, none⟩
      (d, { st with secrets := st.secrets ++ [d], nextId := st.nextId + 1 })

/-- The condition of the lockout-restore branch of `get_or_create_state`:
`attempts_left == 0 and locked_until` is set `and now >= locked_until`. -/
def lockoutExpired (now : Nat) (gs : GameState) : Bool :=
  gs.attempts_left == 0 &&
    (match gs.locked_until with
     | some t => decide (t ≤ now)
     | none => false)

/-- Function `get_or_create_state` (the spec's `resolve`): fetch or create
the player's state and reconcile it against the active secret (rotation
detection, lazy lockout expiry). Returns the effective-state dictionary and
the updated store. -/
def getOrCreateState (user now : Nat) (st : Store) (active : Secret) :
    EffState × Store :=
  let csid := active.secret_id
  match st.states user with
  | none =>
      (⟨3, none, none, some csid, false, none⟩,
       setState user ⟨some csid, 3, none, none, false, none⟩ st)
  | some gs =>
      if gs.current_secret_id ≠ some csid then
        (⟨3, none, none, some csid, false, none⟩,
         setState user ⟨some csid, 3, none, none, false, none⟩ st)
      else if lockoutExpired now gs then
        (⟨3, none, none, some csid, gs.can_create_secret, none⟩,
         setState user
           { gs with attempts_left := 3, locked_until := none,
                     last_result := none, last_guess := none } st)
      else
        (⟨gs.attempts_left, gs.last_result, gs.last_guess, some csid,
          gs.can_create_secret, gs.locked_until⟩, st)

/-- The guess comparison as implemented by the `submit_guess` route applied
to the raw request text: the guess is stripped on entry and both sides are
lowercased — the stored phrase itself is not stripped. -/
def matchesCode (rawGuess phrase : Str) : Bool :=
  pyLower (pyStrip rawGuess) == pyLower phrase

/-- The guess comparison as the spec words it: trim and lowercase both
sides (`matches(guess, secret_phrase) =
guess.trim().lowercase() == secret_phrase.trim().lowercase()`). -/
def matchesSpec (rawGuess phrase : Str) : Bool :=
  pyLower (pyStrip rawGuess) == pyLower (pyStrip phrase)

/-- Route `/api/submit-guess` (the spec's `apply_guess`). -/
def submitGuess (user : Nat) (rawGuess : Str) (now : Nat) (st : Store) :
    Outcome × Store :=
  let guess := pyStrip rawGuess
  match getActiveSecret st.secrets with
  | none => (Outcome.noActiveSecretErr, st)
  | some active =>
      let r := getOrCreateState user now st active
      let state := r.1
      let st1 := r.2
      if state.attempts_left ≤ 0 then
        (Outcome.noAttempts, st1)
      else
        let attempts' := state.attempts_left - 1
        if pyLower guess == pyLower active.secret_phrase then
          let st2 : Store :=
            { st1 with secrets := markSecretSolved now active.secret_id st1.secrets }
          let st3 := updateStateWith user
            (fun gs => { gs with attempts_left := attempts',
                                 last_result := some GuessResult.correct,
                                 last_guess := some guess,
                                 can_create_secret := true })
            ⟨none, attempts', some GuessResult.correct, some guess, true, none⟩ st2
          (Outcome.correct, st3)
        else
          let st2 : Store :=
            { st1 with secrets := incrementWrongGuesses active.secret_id st1.secrets }
          if attempts' = 0 then
            let st3 := updateStateWith user
              (fun gs => { gs with attempts_left := attempts',
                                   last_result := some GuessResult.incorrect,
                                   last_guess := some guess,
                                   locked_until := some (now + LOCKOUT_SECONDS) })
              ⟨none, attempts', some GuessResult.incorrect, some guess, false,
               some (now + LOCKOUT_SECONDS)⟩ st2
            (Outcome.incorrect, st3)
          else
            let st3 := updateStateWith user
              (fun gs => { gs with attempts_left := attempts',
                                   last_result := some GuessResult.incorrect,
                                   last_guess := some guess })
              ⟨none, attempts', some GuessResult.incorrect, some guess, false, none⟩ st2
            (Outcome.incorrect, st3)

/-- Route `/api/create-secret` (the spec's `rotate_secret`): permission
check on the caller's stored `can_create_secret` flag, then validation of
the stripped phrase and hint, then insertion of the new secret and clearing
of the caller's flag. -/
def createSecretRoute (user : Nat) (rawPhrase rawHint : Str) (now : Nat)
    (st : Store) : RotateOutcome × Store :=
  match st.states user with
  | none => (RotateOutcome.permissionDenied, st)
  | some gs =>
      if !gs.can_create_secret then
        (RotateOutcome.permissionDenied, st)
      else
        let newPhrase := pyStrip rawPhrase
        let hint := pyStrip rawHint
        if newPhrase.isEmpty then (RotateOutcome.validationError, st)
        else if hint.isEmpty then (RotateOutcome.validationError, st)
        else if newPhrase.length < 3 then (RotateOutcome.validationError, st)
        else if hint.length < 5 then (RotateOutcome.validationError, st)
        else
          let newSecret : Secret :=
            ⟨st.nextId, newPhrase, hint, now, some user, 0, none⟩
          let st2 : Store :=
            { st with secrets := st.secrets ++ [newSecret], nextId := st.nextId + 1 }
          let st3 := updateStateWith user
            (fun g => { g with can_create_secret := false })
            ⟨none, 3, none, none, false, none⟩ st2
          (RotateOutcome.created st.nextId, st3)

/-- Route `/api/game-state`: fetch the active secret (creating the default
one if none is active), resolve the player's state, and return it together
with the secret's hint and id. -/
def gameStateRoute (user now : Nat) (st : Store) : GameStateResponse × Store :=
  let ar :=
    match getActiveSecret st.secrets with
    | some a => (a, st)
    | none => createDefaultSecretOp now st
  let active := ar.1
  let st1 := ar.2
  let r := getOrCreateState user now st1 active
  let s := r.1
  ({ attempts_left := s.attempts_left, last_result := s.last_result,
     last_guess := s.last_guess, current_secret_id := s.current_secret_id,
     can_create_secret := s.can_create_secret, locked_until := s.locked_until,
     hint := active.hint, secret_id := active.secret_id }, r.2)

/-- Route `/api/reset`: rebind the user's state to the active secret with
three attempts and all flags cleared (503 when no secret is active). -/
def resetRoute (user now : Nat) (st : Store) : ResetOutcome × Store :=
  match getActiveSecret st.secrets with
  | none => (ResetOutcome.noActiveSecretErr, st)
  | some active =>
      let rs : GameState := ⟨some active.secret_id, 3, none, none, false, none⟩
      (ResetOutcome.ok, updateStateWith user (fun _ => rs) rs st)

/-- The empty database. -/
def emptyStore : Store := ⟨[], fun _ => none, 0⟩

/-- The store after application startup: `create_app` runs
`create_default_secret` once, so the default secret is active. -/
def initStore : Store := (createDefaultSecretOp 0 emptyStore).2

/-- One public operation of the web app, at an arbitrary time, by an
arbitrary user, with arbitrary request payload. -/
inductive Step : Store → Store → Prop
  | gameStateQ (user now : Nat) (st : Store) :
      Step st (gameStateRoute user now st).2
  | guess (user : Nat) (g : Str) (now : Nat) (st : Store) :
      Step st (submitGuess user g now st).2
  | rotate (user : Nat) (p h : Str) (now : Nat) (st : Store) :
      Step st (createSecretRoute user p h now st).2
  | resetQ (user now : Nat) (st : Store) :
      Step st (resetRoute user now st).2

/-- Stores reachable from startup by any sequence of public operations. -/
def Reachable (st : Store) : Prop :=
  Relation.ReflTransGen Step initStore st

/-- Number of active (unsolved) secrets in the store. -/
def activeCount (st : Store) : Nat :=
  (st.secrets.filter fun s => s.solved_at.isNone).length

/-- Lookup of a user's stored game state. -/
def stateOf (user : Nat) (st : Store) : Option GameState := st.states user

/-- A user's stored remaining attempts. -/
def attemptsOf (user : Nat) (st : Store) : Option Nat :=
  (st.states user).map (fun gs => gs.attempts_left)

/-- The `solved_at` field of the stored secret with the given id. -/
def solvedOf (sid : Nat) (st : Store) : Option (Option Nat) :=
  (st.secrets.find? fun s => s.secret_id == sid).map (fun s => s.solved_at)

/-- The ids of the stored secrets are pairwise distinct. -/
def uniqueSecretIds (st : Store) : Prop :=
  (st.secrets.map fun s => s.secret_id).Nodup

/-! ### Concrete fixtures used by the witnesses -/

/-- The default secret with id 0, as created at startup. -/
def secA : Secret := ⟨0, DEFAULT_SECRET_PHRASE, DEFAULT_SECRET_HINT, 0, none, 0, none⟩

/-- A store whose only user is bound to a stale secret id 99. -/
def c5Store : Store :=
  ⟨[secA],
   fun u => if u = 1 then
     some ⟨some 99, 0, some GuessResult.incorrect, some "x".toList, true, some 500⟩
   else none, 1⟩

/-- A store whose only user has a fresh state bound to the active secret. -/
def c6Store : Store :=
  ⟨[secA], fun u => if u = 1 then some ⟨some 0, 3, none, none, false, none⟩ else none, 1⟩

/-- The game state of user 1 in `c6Store`. -/
def c6gs : GameState := ⟨some 0, 3, none, none, false, none⟩

/-- A store whose only user has no attempts left and an active lock. -/
def c7Store : Store :=
  ⟨[secA],
   fun u => if u = 1 then
     some ⟨some 0, 0, some GuessResult.incorrect, some "x".toList, false, some 100000⟩
   else none, 1⟩

/-- More fixtures: a user one wrong guess away from lockout, a fresh user,
and a locked-out user whose lock expires at time 1000. -/
def c4gsA : GameState := ⟨some 0, 1, some GuessResult.incorrect, some "y".toList, false, none⟩

def c4StoreA : Store := ⟨[secA], fun u => if u = 1 then some c4gsA else none, 1⟩

def c4gsB : GameState := ⟨some 0, 3, none, none, false, none⟩

def c4StoreB : Store := ⟨[secA], fun u => if u = 1 then some c4gsB else none, 1⟩

def c4gsC : GameState := ⟨some 0, 0, some GuessResult.incorrect, some "y".toList, true, some 1000⟩

def c4StoreC : Store := ⟨[secA], fun u => if u = 1 then some c4gsC else none, 1⟩

/-- A user without rotation permission. -/
def c8gs : GameState := ⟨some 0, 2, none, none, false, none⟩

/-- Store for the permission-denied witness (user 1 has no permission,
user 2 has no state at all). -/
def c8Store : Store := ⟨[secA], fun u => if u = 1 then some c8gs else none, 1⟩

/-- A user who solved the secret and holds rotation permission. -/
def c8gsT : GameState := ⟨some 0, 2, some GuessResult.correct, none, true, none⟩

/-- Store for the validation-error witness. -/
def c8StoreT : Store := ⟨[secA], fun u => if u = 1 then some c8gsT else none, 1⟩

/-- Two secrets that agree on every stored field except possibly the
phrase. -/
def exceptPhrase (s t : Secret) : Prop :=
  s.secret_id = t.secret_id ∧ s.hint = t.hint ∧ s.created_at = t.created_at ∧
  s.created_by = t.created_by ∧ s.wrong_guesses = t.wrong_guesses ∧
  s.solved_at = t.solved_at

/-- A store identical to `⟨[secA], …⟩` except that the active secret's
phrase is different. -/
def c9Store : Store :=
  ⟨[⟨0, "Hunter2 rosebud".toList, DEFAULT_SECRET_HINT, 0, none, 0, none⟩],
   fun _ => none, 1⟩

/-- The store with the default secret and no game states. -/
def c9StoreA : Store := ⟨[secA], fun _ => none, 1⟩

/-- Guarded transition system: identical to `Step` except that a rotation
may only be invoked while no secret is active. The code itself does not
enforce this guard. -/
inductive StepG : Store → Store → Prop
  | gameStateQ (user now : Nat) (st : Store) :
      StepG st (gameStateRoute user now st).2
  | guess (user : Nat) (g : Str) (now : Nat) (st : Store) :
      StepG st (submitGuess user g now st).2
  | rotate (user : Nat) (p h : Str) (now : Nat) (st : Store) :
      activeCount st = 0 → StepG st (createSecretRoute user p h now st).2
  | resetQ (user now : Nat) (st : Store) :
      StepG st (resetRoute user now st).2

/-- Stores reachable from startup when rotations only happen while no
secret is active. -/
def ReachableG (st : Store) : Prop :=
  Relation.ReflTransGen StepG initStore st

/-- Trace for C1: user 1 solves the default secret at time 10... -/
def c1s1 : Store := (submitGuess 1 " open sesame ".toList 10 initStore).2

/-- ...user 2 queries the game state at time 20, which re-creates a default
secret because none is active... -/
def c1s2 : Store := (gameStateRoute 2 20 c1s1).2

/-- ...and user 1, whose `can_create_secret` flag is still set, rotates at
time 30, inserting a second active secret. -/
def c1s3 : Store :=
  (createSecretRoute 1 "ham sandwich".toList "a tasty snack".toList 30 c1s2).2

/-- Trace for C2: user 1 plays from a fresh state... -/
def c2s0 : Store := (gameStateRoute 1 0 initStore).2

/-- ...three wrong guesses at times 0, 1, 2 exhaust the attempts... -/
def c2s1 : Store := (submitGuess 1 "x".toList 0 c2s0).2

def c2s2 : Store := (submitGuess 1 "x".toList 1 c2s1).2

def c2s3 : Store := (submitGuess 1 "x".toList 2 c2s2).2

/-- ...and a fourth guess after the 24-hour lock has expired first restores
the attempts to 3, then consumes one, leaving 2. -/
def c2s4 : Store := (submitGuess 1 "x".toList 86402 c2s3).2

/-- A fresh game state bound to the default secret, for the C2 witness. -/
def c2wgs : GameState := ⟨some 0, 3, none, none, false, none⟩

def c2wStore : Store := ⟨[secA], fun u => if u = 1 then some c2wgs else none, 1⟩

/-- A secret whose stored phrase carries surrounding whitespace. Not
reachable by the program (which strips before storing), but the pure
evaluation function is defined on it. -/
def c3Secret : Secret := ⟨0, " abc ".toList, "a hint long enough".toList, 0, none, 0, none⟩

def c3Store : Store := ⟨[c3Secret], fun _ => none, 1⟩

/-- Every stored secret's phrase and hint are fixed points of stripping. -/
def trimmedSecrets (l : List Secret) : Prop :=
  ∀ s ∈ l, pyStrip s.secret_phrase = s.secret_phrase ∧ pyStrip s.hint = s.hint

/-! ### Basic lemmas about stripping -/

theorem pyStrip_eq_rdropWhile (s : Str) :
    pyStrip s = List.rdropWhile isPySpace (List.dropWhile isPySpace s) := rfl

theorem dropWhile_prefix_fixed {p : Char → Bool} {l r : Str}
    (hl : List.dropWhile p l = l) (hr : r <+: l) : List.dropWhile p r = r := by
  cases r with
  | nil => simp
  | cons a r' =>
      obtain ⟨t, ht⟩ := hr
      subst ht
      have ha : ¬ p a := by
        have h0 : 0 < (a :: r' ++ t).length := by simp
        exact List.dropWhile_eq_self_iff.mp hl h0
      simp [List.dropWhile_cons, ha]

/-- Python stripping is idempotent. -/
theorem pyStrip_idem (s : Str) : pyStrip (pyStrip s) = pyStrip s := by
  have hfix : List.dropWhile isPySpace (pyStrip s) = pyStrip s := by
    refine dropWhile_prefix_fixed (List.dropWhile_idempotent isPySpace s) ?_
    exact List.rdropWhile_prefix isPySpace (List.dropWhile isPySpace s)
  calc pyStrip (pyStrip s)
      = List.rdropWhile isPySpace (List.dropWhile isPySpace (pyStrip s)) := rfl
    _ = List.rdropWhile isPySpace (pyStrip s) := by rw [hfix]
    _ = List.rdropWhile isPySpace (List.dropWhile isPySpace s) :=
        List.rdropWhile_idempotent isPySpace (List.dropWhile isPySpace s)
    _ = pyStrip s := rfl

/-! ### Characterizations of `get_or_create_state` (the spec's `resolve`) -/

/-- Read-only path: same bound secret, no expired lockout — the stored state
is returned unchanged and the store is untouched. -/
theorem resolve_existing (u now : Nat) (st : Store) (a : Secret) (gs : GameState)
    (h1 : st.states u = some gs) (h2 : gs.current_secret_id = some a.secret_id)
    (h3 : lockoutExpired now gs = false) :
    getOrCreateState u now st a =
      (⟨gs.attempts_left, gs.last_result, gs.last_guess, some a.secret_id,
        gs.can_create_secret, gs.locked_until⟩, st) := by
  unfold getOrCreateState
  rw [h1]
  simp [h2, h3]

/-- Rotation-detection path: the stored state's bound secret differs from the
active one — the state is reset and rebound. -/
theorem resolve_reset (u now : Nat) (st : Store) (a : Secret) (gs : GameState)
    (h1 : st.states u = some gs) (h2 : gs.current_secret_id ≠ some a.secret_id) :
    getOrCreateState u now st a =
      (⟨3, none, none, some a.secret_id, false, none⟩,
       setState u ⟨some a.secret_id, 3, none, none, false, none⟩ st) := by
  unfold getOrCreateState
  rw [h1]
  simp [h2]

/-- Lockout-expiry path: attempts are restored to 3 and the lock cleared,
preserving `can_create_secret` and the bound secret id. -/
theorem resolve_restore (u now : Nat) (st : Store) (a : Secret) (gs : GameState)
    (h1 : st.states u = some gs) (h2 : gs.current_secret_id = some a.secret_id)
    (h3 : lockoutExpired now gs = true) :
    getOrCreateState u now st a =
      (⟨3, none, none, some a.secret_id, gs.can_create_secret, none⟩,
       setState u
         { gs with attempts_left := 3, locked_until := none,
                   last_result := none, last_guess := none } st) := by
  unfold getOrCreateState
  rw [h1]
  simp [h2, h3]

/-- Fresh-user path: a new state is created and persisted. -/
theorem resolve_fresh (u now : Nat) (st : Store) (a : Secret)
    (h1 : st.states u = none) :
    getOrCreateState u now st a =
      (⟨3, none, none, some a.secret_id, false, none⟩,
       setState u ⟨some a.secret_id, 3, none, none, false, none⟩ st) := by
  unfold getOrCreateState
  rw [h1]

/-! ### Small facts about the store operations -/

theorem setState_secrets (u : Nat) (gs : GameState) (st : Store) :
    (setState u gs st).secrets = st.secrets := rfl

theorem updateStateWith_secrets (u : Nat) (f : GameState → GameState)
    (ins : GameState) (st : Store) :
    (updateStateWith u f ins st).secrets = st.secrets := by
  unfold updateStateWith
  cases st.states u <;> rfl

theorem resolve_secrets (u now : Nat) (st : Store) (a : Secret) :
    ((getOrCreateState u now st a).2).secrets = st.secrets := by
  rcases h1 : st.states u with _ | gs
  · rw [resolve_fresh u now st a h1]; rfl
  · by_cases h2 : gs.current_secret_id = some a.secret_id
    · by_cases h3 : lockoutExpired now gs = true
      · rw [resolve_restore u now st a gs h1 h2 h3]; rfl
      · rw [resolve_existing u now st a gs h1 h2 (Bool.eq_false_iff.mpr h3)]
    · rw [resolve_reset u now st a gs h1 h2]; rfl

theorem setState_states_self (u : Nat) (gs : GameState) (st : Store) :
    (setState u gs st).states u = some gs := by
  simp [setState]

/-- A positive attempts count rules out the lockout-restore branch. -/
theorem lockoutExpired_of_pos (now : Nat) (gs : GameState)
    (h : 0 < gs.attempts_left) : lockoutExpired now gs = false := by
  unfold lockoutExpired
  have h0 : (gs.attempts_left == 0) = false := by
    rw [beq_eq_false_iff_ne]
    omega
  rw [h0, Bool.false_and]

/-- The active secret is a stored, unsolved secret. -/
theorem getActive_mem {l : List Secret} {a : Secret}
    (h : getActiveSecret l = some a) : a ∈ l ∧ a.solved_at = none := by
  have key : ∀ (m : List Secret) (acc : Option Secret) (b : Secret),
      m.foldl (fun acc s =>
        match acc with
        | none => some s
        | some c => if s.created_at < c.created_at then some s else acc) acc = some b →
      b ∈ m ∨ acc = some b := by
    intro m
    induction m with
    | nil => intro acc b hb; exact Or.inr hb
    | cons x xs ih =>
        intro acc b hb
        rcases ih _ b hb with hmem | hacc
        · exact Or.inl (List.mem_cons_of_mem x hmem)
        · cases acc with
          | none =>
              simp only at hacc
              obtain rfl := Option.some.inj hacc
              exact Or.inl (List.mem_cons_self x xs)
          | some c =>
              simp only at hacc
              by_cases hlt : x.created_at < c.created_at
              · rw [if_pos hlt] at hacc
                obtain rfl := Option.some.inj hacc
                exact Or.inl (List.mem_cons_self x xs)
              · rw [if_neg hlt] at hacc
                exact Or.inr hacc
  unfold getActiveSecret at h
  rcases key _ _ _ h with hmem | hacc
  · have hf := List.mem_filter.mp hmem
    exact ⟨hf.1, Option.isNone_iff_eq_none.mp hf.2⟩
  · cases hacc

/-- Marking the active secret solved: with distinct ids, looking up that id
afterwards yields the same record with `solved_at` set. -/
theorem find?_markSecretSolved {l : List Secret} {a : Secret} (now : Nat)
    (hmem : a ∈ l) (hnd : (l.map fun s => s.secret_id).Nodup) :
    (markSecretSolved now a.secret_id l).find? (fun s => s.secret_id == a.secret_id)
      = some { a with solved_at := some now } := by
  induction l with
  | nil => cases hmem
  | cons x xs ih =>
      rw [List.map_cons, List.nodup_cons] at hnd
      by_cases hx : x.secret_id = a.secret_id
      · have hax : a = x := by
          rcases List.mem_cons.mp hmem with h | h
          · exact h
          · exfalso
            apply hnd.1
            rw [hx]
            exact List.mem_map_of_mem (fun s => s.secret_id) h
        subst hax
        unfold markSecretSolved updateFirstSecret
        simp
      · have hax : a ∈ xs := by
          rcases List.mem_cons.mp hmem with h | h
          · subst h
            exact absurd rfl hx
          · exact h
        have hxb : (x.secret_id == a.secret_id) = false := by
          simp [hx]
        unfold markSecretSolved updateFirstSecret
        rw [hxb]
        simp only [Bool.false_eq_true, if_false, List.find?_cons, hxb]
        exact ih hax hnd.2

/-! ### Characterizations of `submit_guess` (the spec's `apply_guess`) -/

/-- No-attempts path: with the same bound secret, no expired lockout and a
zero attempts count, the guess is a no-op. -/
theorem submit_noAttempts_char (u : Nat) (g : Str) (now : Nat) (st : Store)
    (a : Secret) (gs : GameState)
    (ha : getActiveSecret st.secrets = some a)
    (h1 : st.states u = some gs) (h2 : gs.current_secret_id = some a.secret_id)
    (h3 : lockoutExpired now gs = false) (h4 : gs.attempts_left = 0) :
    submitGuess u g now st = (Outcome.noAttempts, st) := by
  unfold submitGuess
  rw [ha]
  dsimp only
  rw [resolve_existing u now st a gs h1 h2 h3]
  dsimp only
  rw [if_pos (by omega : gs.attempts_left ≤ 0)]

/-- Correct-guess path: decrement, record the result, grant rotation
permission, and mark the secret solved. -/
theorem submit_correct_char (u : Nat) (g : Str) (now : Nat) (st : Store)
    (a : Secret) (gs : GameState)
    (ha : getActiveSecret st.secrets = some a)
    (h1 : st.states u = some gs) (h2 : gs.current_secret_id = some a.secret_id)
    (h4 : 0 < gs.attempts_left)
    (hm : matchesCode g a.secret_phrase = true) :
    submitGuess u g now st =
      (Outcome.correct,
       setState u { gs with attempts_left := gs.attempts_left - 1,
                            last_result := some GuessResult.correct,
                            last_guess := some (pyStrip g),
                            can_create_secret := true }
         { st with secrets := markSecretSolved now a.secret_id st.secrets }) := by
  have h3 := lockoutExpired_of_pos now gs h4
  unfold matchesCode at hm
  unfold submitGuess
  rw [ha]
  dsimp only
  rw [resolve_existing u now st a gs h1 h2 h3]
  dsimp only
  rw [if_neg (by omega : ¬ gs.attempts_left ≤ 0), if_pos hm]
  unfold updateStateWith
  dsimp only
  rw [h1]

/-- Wrong-guess path from one remaining attempt: attempts hit zero and the
24-hour lock is set. -/
theorem submit_wrong_lock_char (u : Nat) (g : Str) (now : Nat) (st : Store)
    (a : Secret) (gs : GameState)
    (ha : getActiveSecret st.secrets = some a)
    (h1 : st.states u = some gs) (h2 : gs.current_secret_id = some a.secret_id)
    (h4 : gs.attempts_left = 1)
    (hm : matchesCode g a.secret_phrase = false) :
    submitGuess u g now st =
      (Outcome.incorrect,
       setState u { gs with attempts_left := 0,
                            last_result := some GuessResult.incorrect,
                            last_guess := some (pyStrip g),
                            locked_until := some (now + LOCKOUT_SECONDS) }
         { st with secrets := incrementWrongGuesses a.secret_id st.secrets }) := by
  have h3 := lockoutExpired_of_pos now gs (by omega)
  unfold matchesCode at hm
  unfold submitGuess
  rw [ha]
  dsimp only
  rw [resolve_existing u now st a gs h1 h2 h3]
  dsimp only
  rw [if_neg (by omega : ¬ gs.attempts_left ≤ 0), if_neg (by simp [hm]),
    if_pos (by omega : gs.attempts_left - 1 = 0)]
  unfold updateStateWith
  dsimp only
  rw [h1, h4]

/-- Wrong-guess path with at least two remaining attempts: decrement only,
no lock is set. -/
theorem submit_wrong_nolock_char (u : Nat) (g : Str) (now : Nat) (st : Store)
    (a : Secret) (gs : GameState)
    (ha : getActiveSecret st.secrets = some a)
    (h1 : st.states u = some gs) (h2 : gs.current_secret_id = some a.secret_id)
    (h4 : 2 ≤ gs.attempts_left)
    (hm : matchesCode g a.secret_phrase = false) :
    submitGuess u g now st =
      (Outcome.incorrect,
       setState u { gs with attempts_left := gs.attempts_left - 1,
                            last_result := some GuessResult.incorrect,
                            last_guess := some (pyStrip g) }
         { st with secrets := incrementWrongGuesses a.secret_id st.secrets }) := by
  have h3 := lockoutExpired_of_pos now gs (by omega)
  unfold matchesCode at hm
  unfold submitGuess
  rw [ha]
  dsimp only
  rw [resolve_existing u now st a gs h1 h2 h3]
  dsimp only
  rw [if_neg (by omega : ¬ gs.attempts_left ≤ 0), if_neg (by simp [hm]),
    if_neg (by omega : ¬ gs.attempts_left - 1 = 0)]
  unfold updateStateWith
  dsimp only
  rw [h1]

/-! ### Claim C5 -/

/-- C5: whenever a stored GameState's bound secret id differs from the
active secret's id, `resolve` (`get_or_create_state`) resets that user's
state to 3 attempts with `last_result`, `last_guess`, `locked_until` and
`can_create_secret` all cleared and rebinds it to the new secret id,
regardless of the prior state. -/
theorem C5_secretChangeReset : ∀ (u now : Nat) (st : Store) (a : Secret) (gs : GameState),
    getActiveSecret st.secrets = some a →
    stateOf u st = some gs →
    gs.current_secret_id ≠ some a.secret_id →
    getOrCreateState u now st a =
      (⟨3, none, none, some a.secret_id, false, none⟩,
       setState u ⟨some a.secret_id, 3, none, none, false, none⟩ st) := by
  intro u now st a gs _ha h1 h2
  exact resolve_reset u now st a gs h1 h2

/-- Witness for C5 at a concrete locked-out, rotation-entitled stale state. -/
theorem C5_secretChangeReset_witness :
    getOrCreateState 1 50 c5Store secA =
      (⟨3, none, none, some secA.secret_id, false, none⟩,
       setState 1 ⟨some secA.secret_id, 3, none, none, false, none⟩ c5Store) :=
  C5_secretChangeReset 1 50 c5Store secA
    ⟨some 99, 0, some GuessResult.incorrect, some "x".toList, true, some 500⟩
    rfl rfl (by decide)

/-! ### Claim C6 -/

/-- C6: with attempts remaining after resolution and a guess matching the
active secret's phrase, `apply_guess` decrements `attempts_left`, sets
`last_result = correct` and `can_create_secret = true`, persists the state,
sets `solved_at` on that secret, and returns outcome `correct`. -/
theorem C6_correctGuess : ∀ (u : Nat) (g : Str) (now : Nat) (st : Store) (a : Secret) (gs : GameState),
    getActiveSecret st.secrets = some a →
    stateOf u st = some gs →
    gs.current_secret_id = some a.secret_id →
    0 < gs.attempts_left →
    matchesCode g a.secret_phrase = true →
    uniqueSecretIds st →
    (submitGuess u g now st).1 = Outcome.correct ∧
    stateOf u (submitGuess u g now st).2 =
      some { gs with attempts_left := gs.attempts_left - 1,
                     last_result := some GuessResult.correct,
                     last_guess := some (pyStrip g),
                     can_create_secret := true } ∧
    (submitGuess u g now st).2.secrets = markSecretSolved now a.secret_id st.secrets ∧
    solvedOf a.secret_id (submitGuess u g now st).2 = some (some now) := by
  intro u g now st a gs ha h1 h2 h4 hm hnd
  have hs := submit_correct_char u g now st a gs ha h1 h2 h4 hm
  refine ⟨by rw [hs], ?_, by rw [hs]; rfl, ?_⟩
  · rw [hs]
    exact setState_states_self u _ _
  · rw [hs]
    unfold solvedOf
    show ((markSecretSolved now a.secret_id st.secrets).find?
            (fun s => s.secret_id == a.secret_id)).map (fun s => s.solved_at)
          = some (some now)
    rw [find?_markSecretSolved now (getActive_mem ha).1 hnd]
    rfl

/-- Witness for C6: user 1 guesses the default phrase with 3 attempts. -/
theorem C6_correctGuess_witness :
    (submitGuess 1 "open sesame".toList 40 c6Store).1 = Outcome.correct ∧
    stateOf 1 (submitGuess 1 "open sesame".toList 40 c6Store).2 =
      some { c6gs with attempts_left := c6gs.attempts_left - 1,
                       last_result := some GuessResult.correct,
                       last_guess := some (pyStrip "open sesame".toList),
                       can_create_secret := true } ∧
    (submitGuess 1 "open sesame".toList 40 c6Store).2.secrets =
      markSecretSolved 40 secA.secret_id c6Store.secrets ∧
    solvedOf secA.secret_id (submitGuess 1 "open sesame".toList 40 c6Store).2 =
      some (some 40) :=
  C6_correctGuess 1 "open sesame".toList 40 c6Store secA c6gs
    rfl rfl rfl (by decide) (by decide)
    (by unfold uniqueSecretIds ; decide)

/-! ### Claim C7 -/

/-- C7: if the resolved attempts count is 0, `apply_guess` returns
`no_attempts` and mutates nothing at all — the returned store is the input
store — even when the submitted guess matches the phrase. -/
theorem C7_noAttemptsNoMutation : ∀ (u : Nat) (g : Str) (now : Nat) (st : Store) (a : Secret),
    getActiveSecret st.secrets = some a →
    (getOrCreateState u now st a).1.attempts_left = 0 →
    submitGuess u g now st = (Outcome.noAttempts, st) := by
  intro u g now st a ha hpost
  rcases h1 : st.states u with _ | gs
  · rw [resolve_fresh u now st a h1] at hpost
    simp at hpost
  · by_cases h2 : gs.current_secret_id = some a.secret_id
    · by_cases h3 : lockoutExpired now gs = true
      · rw [resolve_restore u now st a gs h1 h2 h3] at hpost
        simp at hpost
      · have h3' := Bool.eq_false_iff.mpr h3
        have h4 : gs.attempts_left = 0 := by
          rw [resolve_existing u now st a gs h1 h2 h3'] at hpost
          exact hpost
        exact submit_noAttempts_char u g now st a gs ha h1 h2 h3' h4
    · rw [resolve_reset u now st a gs h1 h2] at hpost
      simp at hpost

/-- Witness for C7: a locked-out user submits the matching phrase and the
store is returned unchanged. -/
theorem C7_noAttemptsNoMutation_witness :
    submitGuess 1 "open sesame".toList 50 c7Store = (Outcome.noAttempts, c7Store) :=
  C7_noAttemptsNoMutation 1 "open sesame".toList 50 c7Store secA rfl rfl

/-! ### Claim C4 -/

/-- With a zero attempts count and a set lock, the lockout-restore condition
reduces to comparing the current time with the lock expiry. -/
theorem lockoutExpired_eq (now : Nat) (gs : GameState) (L : Nat)
    (hA : gs.attempts_left = 0) (hL : gs.locked_until = some L) :
    lockoutExpired now gs = decide (L ≤ now) := by
  unfold lockoutExpired
  rw [hA, hL]
  rfl

/-- C4: the wrong guess that drops `attempts_left` to 0 sets `locked_until`
to 24 hours after that guess; a wrong guess with two or more attempts
remaining leaves `locked_until` untouched (so the lock is set only by the
third consecutive wrong guess from a fresh state); `resolve` strictly before
the lock expiry returns the stored state with `attempts_left = 0` and the
store unchanged; `resolve` at or after the expiry restores `attempts_left`
to 3 and clears `locked_until`, preserving `can_create_secret` and the
bound secret id. -/
theorem C4_lockoutLifecycle :
    (∀ (u : Nat) (g : Str) (now : Nat) (st : Store) (a : Secret) (gs : GameState),
      getActiveSecret st.secrets = some a →
      stateOf u st = some gs →
      gs.current_secret_id = some a.secret_id →
      matchesCode g a.secret_phrase = false →
      gs.attempts_left = 1 →
      stateOf u (submitGuess u g now st).2 =
        some { gs with attempts_left := 0,
                       last_result := some GuessResult.incorrect,
                       last_guess := some (pyStrip g),
                       locked_until := some (now + LOCKOUT_SECONDS) }) ∧
    (∀ (u : Nat) (g : Str) (now : Nat) (st : Store) (a : Secret) (gs : GameState),
      getActiveSecret st.secrets = some a →
      stateOf u st = some gs →
      gs.current_secret_id = some a.secret_id →
      matchesCode g a.secret_phrase = false →
      2 ≤ gs.attempts_left →
      stateOf u (submitGuess u g now st).2 =
        some { gs with attempts_left := gs.attempts_left - 1,
                       last_result := some GuessResult.incorrect,
                       last_guess := some (pyStrip g) }) ∧
    (∀ (u now : Nat) (st : Store) (a : Secret) (gs : GameState) (L : Nat),
      stateOf u st = some gs →
      gs.current_secret_id = some a.secret_id →
      gs.attempts_left = 0 →
      gs.locked_until = some L →
      now < L →
      getOrCreateState u now st a =
        (⟨0, gs.last_result, gs.last_guess, some a.secret_id,
          gs.can_create_secret, some L⟩, st)) ∧
    (∀ (u now : Nat) (st : Store) (a : Secret) (gs : GameState) (L : Nat),
      stateOf u st = some gs →
      gs.current_secret_id = some a.secret_id →
      gs.attempts_left = 0 →
      gs.locked_until = some L →
      L ≤ now →
      getOrCreateState u now st a =
        (⟨3, none, none, some a.secret_id, gs.can_create_secret, none⟩,
         setState u { gs with attempts_left := 3, locked_until := none,
                              last_result := none, last_guess := none } st)) := by
  refine ⟨?_, ?_, ?_, ?_⟩
  · intro u g now st a gs ha h1 h2 hm h5
    have hs := submit_wrong_lock_char u g now st a gs ha h1 h2 h5 hm
    rw [hs]
    exact setState_states_self u _ _
  · intro u g now st a gs ha h1 h2 hm h5
    have hs := submit_wrong_nolock_char u g now st a gs ha h1 h2 h5 hm
    rw [hs]
    exact setState_states_self u _ _
  · intro u now st a gs L h1 h2 hA hL hnow
    have h3 : lockoutExpired now gs = false := by
      rw [lockoutExpired_eq now gs L hA hL]
      simp only [decide_eq_false_iff_not]
      omega
    rw [resolve_existing u now st a gs h1 h2 h3, hA, hL]
  · intro u now st a gs L h1 h2 hA hL hnow
    have h3 : lockoutExpired now gs = true := by
      rw [lockoutExpired_eq now gs L hA hL]
      simp only [decide_eq_true_eq]
      omega
    exact resolve_restore u now st a gs h1 h2 h3

/-- Witness for C4: the lock appears exactly on the 1-to-0 guess, a fresh
guess sets no lock, and a lock set to expire at 1000 blocks at 500 and
restores at 1000. -/
theorem C4_lockoutLifecycle_witness :
    (stateOf 1 (submitGuess 1 "zzz".toList 7 c4StoreA).2 =
      some { c4gsA with attempts_left := 0,
                        last_result := some GuessResult.incorrect,
                        last_guess := some (pyStrip "zzz".toList),
                        locked_until := some (7 + LOCKOUT_SECONDS) }) ∧
    (stateOf 1 (submitGuess 1 "zzz".toList 8 c4StoreB).2 =
      some { c4gsB with attempts_left := c4gsB.attempts_left - 1,
                        last_result := some GuessResult.incorrect,
                        last_guess := some (pyStrip "zzz".toList) }) ∧
    (getOrCreateState 1 500 c4StoreC secA =
      (⟨0, c4gsC.last_result, c4gsC.last_guess, some secA.secret_id,
        c4gsC.can_create_secret, some 1000⟩, c4StoreC)) ∧
    (getOrCreateState 1 1000 c4StoreC secA =
      (⟨3, none, none, some secA.secret_id, c4gsC.can_create_secret, none⟩,
       setState 1 { c4gsC with attempts_left := 3, locked_until := none,
                               last_result := none, last_guess := none } c4StoreC)) :=
  ⟨C4_lockoutLifecycle.1 1 "zzz".toList 7 c4StoreA secA c4gsA rfl rfl rfl (by decide) rfl,
   C4_lockoutLifecycle.2.1 1 "zzz".toList 8 c4StoreB secA c4gsB rfl rfl rfl (by decide) (by decide),
   C4_lockoutLifecycle.2.2.1 1 500 c4StoreC secA c4gsC 1000 rfl rfl rfl rfl (by decide),
   C4_lockoutLifecycle.2.2.2 1 1000 c4StoreC secA c4gsC 1000 rfl rfl rfl rfl (by decide)⟩

/-! ### Claim C8 -/

/-- C8: `rotate_secret` (`create-secret`) fails with `PermissionDenied`
whenever the caller's stored `can_create_secret` flag is false (or the
caller has no stored state), even with a valid phrase and hint; with
permission, it fails with `ValidationError` whenever the trimmed phrase is
shorter than 3 characters (which covers empty) or the trimmed hint is
shorter than 5; in every failure case the returned store is the input store
— no secret inserted, no state changed. -/
theorem C8_rotateFailures :
    (∀ (u : Nat) (p ht : Str) (now : Nat) (st : Store) (gs : GameState),
      stateOf u st = some gs →
      gs.can_create_secret = false →
      createSecretRoute u p ht now st = (RotateOutcome.permissionDenied, st)) ∧
    (∀ (u : Nat) (p ht : Str) (now : Nat) (st : Store),
      stateOf u st = none →
      createSecretRoute u p ht now st = (RotateOutcome.permissionDenied, st)) ∧
    (∀ (u : Nat) (p ht : Str) (now : Nat) (st : Store) (gs : GameState),
      stateOf u st = some gs →
      gs.can_create_secret = true →
      ((pyStrip p).length < 3 ∨ (pyStrip ht).length < 5) →
      createSecretRoute u p ht now st = (RotateOutcome.validationError, st)) := by
  refine ⟨?_, ?_, ?_⟩
  · intro u p ht now st gs h1 hflag
    unfold createSecretRoute
    rw [show st.states u = some gs from h1]
    dsimp only
    rw [hflag]
    rfl
  · intro u p ht now st h1
    unfold createSecretRoute
    rw [show st.states u = none from h1]
  · intro u p ht now st gs h1 hflag hv
    unfold createSecretRoute
    rw [show st.states u = some gs from h1]
    dsimp only
    rw [hflag]
    rw [if_neg (by decide : ¬ ((!true) = true))]
    by_cases e1 : (pyStrip p).isEmpty = true
    · rw [if_pos e1]
    · rw [if_neg e1]
      by_cases e2 : (pyStrip ht).isEmpty = true
      · rw [if_pos e2]
      · rw [if_neg e2]
        rcases hv with hp | hh
        · rw [if_pos hp]
        · by_cases e3 : (pyStrip p).length < 3
          · rw [if_pos e3]
          · rw [if_neg e3, if_pos hh]

/-- Witness for C8: permission denied with valid inputs (stored flag false,
and missing state), and validation error with permission but short
phrase/hint. -/
theorem C8_rotateFailures_witness :
    (createSecretRoute 1 "valid phrase".toList "a valid hint".toList 60 c8Store =
      (RotateOutcome.permissionDenied, c8Store)) ∧
    (createSecretRoute 2 "valid phrase".toList "a valid hint".toList 60 c8Store =
      (RotateOutcome.permissionDenied, c8Store)) ∧
    (createSecretRoute 1 "ab".toList "hi".toList 60 c8StoreT =
      (RotateOutcome.validationError, c8StoreT)) :=
  ⟨C8_rotateFailures.1 1 "valid phrase".toList "a valid hint".toList 60 c8Store c8gs rfl rfl,
   C8_rotateFailures.2.1 2 "valid phrase".toList "a valid hint".toList 60 c8Store rfl,
   C8_rotateFailures.2.2 1 "ab".toList "hi".toList 60 c8StoreT c8gsT rfl rfl
     (Or.inl (by decide))⟩

/-! ### Claim C9 -/

theorem forall2_filter_active {l l' : List Secret}
    (h : List.Forall₂ exceptPhrase l l') :
    List.Forall₂ exceptPhrase (l.filter fun s => s.solved_at.isNone)
      (l'.filter fun s => s.solved_at.isNone) := by
  induction h with
  | nil => exact List.Forall₂.nil
  | @cons a b as bs hr hrest ih =>
      have hsolved : a.solved_at = b.solved_at := hr.2.2.2.2.2
      rw [List.filter_cons, List.filter_cons]
      have hq : b.solved_at.isNone = a.solved_at.isNone := by rw [hsolved]
      rw [hq]
      by_cases hp : a.solved_at.isNone = true
      · rw [if_pos hp, if_pos hp]
        exact List.Forall₂.cons hr ih
      · rw [if_neg hp, if_neg hp]
        exact ih

theorem getActive_forall2 {l l' : List Secret}
    (h : List.Forall₂ exceptPhrase l l') :
    (getActiveSecret l = none ∧ getActiveSecret l' = none) ∨
    (∃ a a', getActiveSecret l = some a ∧ getActiveSecret l' = some a' ∧
      exceptPhrase a a') := by
  have key : ∀ (m m' : List Secret), List.Forall₂ exceptPhrase m m' →
      ∀ (acc acc' : Option Secret),
      ((acc = none ∧ acc' = none) ∨
        (∃ c c', acc = some c ∧ acc' = some c' ∧ exceptPhrase c c')) →
      ((m.foldl (fun acc s =>
          match acc with
          | none => some s
          | some b => if s.created_at < b.created_at then some s else acc) acc = none ∧
        m'.foldl (fun acc s =>
          match acc with
          | none => some s
          | some b => if s.created_at < b.created_at then some s else acc) acc' = none) ∨
       (∃ c c', m.foldl (fun acc s =>
          match acc with
          | none => some s
          | some b => if s.created_at < b.created_at then some s else acc) acc = some c ∧
         m'.foldl (fun acc s =>
          match acc with
          | none => some s
          | some b => if s.created_at < b.created_at then some s else acc) acc' = some c' ∧
         exceptPhrase c c')) := by
    intro m m' hmm
    induction hmm with
    | nil => intro acc acc' hA; exact hA
    | @cons a b as bs hr hrest ih =>
        intro acc acc' hA
        rw [List.foldl_cons, List.foldl_cons]
        apply ih
        rcases hA with ⟨h1, h2⟩ | ⟨c, c', h1, h2, hcc⟩
        · subst h1; subst h2
          exact Or.inr ⟨a, b, rfl, rfl, hr⟩
        · subst h1; subst h2
          have hcreated : a.created_at = b.created_at := hr.2.2.1
          have hcreated' : c.created_at = c'.created_at := hcc.2.2.1
          by_cases hlt : a.created_at < c.created_at
          · have hlt' : b.created_at < c'.created_at := by omega
            simp only [if_pos hlt, if_pos hlt']
            exact Or.inr ⟨a, b, rfl, rfl, hr⟩
          · have hlt' : ¬ b.created_at < c'.created_at := by omega
            simp only [if_neg hlt, if_neg hlt']
            exact Or.inr ⟨c, c', rfl, rfl, hcc⟩
  exact key _ _ (forall2_filter_active h) none none (Or.inl ⟨rfl, rfl⟩)

theorem foldl_pick_some (m : List Secret) (c : Secret) :
    (m.foldl (fun acc s =>
      match acc with
      | none => some s
      | some b => if s.created_at < b.created_at then some s else acc) (some c)).isSome = true := by
  induction m generalizing c with
  | nil => rfl
  | cons y ys ih =>
      rw [List.foldl_cons]
      by_cases hlt : y.created_at < c.created_at
      · simp only [if_pos hlt]
        exact ih y
      · simp only [if_neg hlt]
        exact ih c

theorem getActive_none_filter {l : List Secret}
    (h : getActiveSecret l = none) :
    l.filter (fun s => s.solved_at.isNone) = [] := by
  unfold getActiveSecret at h
  rcases hf : l.filter (fun s => s.solved_at.isNone) with _ | ⟨x, xs⟩
  · exact hf
  · exfalso
    rw [hf, List.foldl_cons] at h
    have := foldl_pick_some xs x
    rw [h] at this
    cases this

/-- The effective state computed by `resolve` depends on the active secret
only through its id, and on the store only through the game states. -/
theorem resolve_fst_phrase_agnostic (u now : Nat) (st st' : Store) (a a' : Secret)
    (hstates : st.states = st'.states) (hid : a.secret_id = a'.secret_id) :
    (getOrCreateState u now st a).1 = (getOrCreateState u now st' a').1 := by
  unfold getOrCreateState
  rw [← hstates, ← hid]
  rcases h : st.states u with _ | gs
  · rfl
  · dsimp only
    by_cases h2 : gs.current_secret_id ≠ some a.secret_id
    · rw [if_pos h2, if_pos h2]
    · rw [if_neg h2, if_neg h2]
      by_cases h3 : lockoutExpired now gs = true
      · rw [if_pos h3, if_pos h3]
      · rw [if_neg h3, if_neg h3]

/-- C9: the `/api/game-state` response exposes the hint and secret id but
never depends on the secret phrase: two stores that agree on the game
states and the uuid counter and whose secrets agree on everything except
possibly their phrases produce identical responses in every field. -/
theorem C9_gameStateIgnoresPhrase : ∀ (u now : Nat) (st st' : Store),
    st.states = st'.states →
    st.nextId = st'.nextId →
    List.Forall₂ exceptPhrase st.secrets st'.secrets →
    (gameStateRoute u now st).1 = (gameStateRoute u now st').1 := by
  intro u now st st' hstates hnext hsecrets
  rcases getActive_forall2 hsecrets with ⟨hn, hn'⟩ | ⟨a, a', ha, ha', hrel⟩
  · unfold gameStateRoute
    rw [hn, hn']
    dsimp only
    unfold createDefaultSecretOp
    rw [getActive_none_filter hn, getActive_none_filter hn']
    dsimp only [List.head?]
    rw [← hnext]
    have hr := resolve_fst_phrase_agnostic u now
      ⟨st.secrets ++ [⟨st.nextId, DEFAULT_SECRET_PHRASE, DEFAULT_SECRET_HINT, now, none, 0, none⟩],
       st.states, st.nextId + 1⟩
      ⟨st'.secrets ++ [⟨st.nextId, DEFAULT_SECRET_PHRASE, DEFAULT_SECRET_HINT, now, none, 0, none⟩],
       st'.states, st.nextId + 1⟩
      ⟨st.nextId, DEFAULT_SECRET_PHRASE, DEFAULT_SECRET_HINT, now, none, 0, none⟩
      ⟨st.nextId, DEFAULT_SECRET_PHRASE, DEFAULT_SECRET_HINT, now, none, 0, none⟩
      hstates rfl
    rw [hr]
  · unfold gameStateRoute
    rw [ha, ha']
    dsimp only
    have hr := resolve_fst_phrase_agnostic u now st st' a a' hstates hrel.1
    rw [hr, hrel.1, hrel.2.1]

/-- Witness for C9: the responses over the two stores coincide. -/
theorem C9_gameStateIgnoresPhrase_witness :
    (gameStateRoute 1 70 c9StoreA).1 = (gameStateRoute 1 70 c9Store).1 :=
  C9_gameStateIgnoresPhrase 1 70 c9StoreA c9Store rfl rfl
    (List.Forall₂.cons ⟨rfl, rfl, rfl, rfl, rfl, rfl⟩ List.Forall₂.nil)

/-! ### Claim C3 -/

/-- On phrases that are fixed points of stripping — all phrases the program
ever stores — the implemented comparison agrees with the spec's
trim-both-sides comparison. -/
theorem matches_agree_of_trimmed (g p : Str) (hp : pyStrip p = p) :
    matchesCode g p = matchesSpec g p := by
  unfold matchesCode matchesSpec
  rw [hp]

/-- C3 counterexample: guess evaluation is not the trim-both-sides function
on all string inputs. On the phrase `" abc "` (whitespace on the phrase
argument) and the guess `"abc"`, the spec's function matches but the code —
which strips only the guess — classifies the submission as incorrect. -/
theorem C3_matchesSpec_counterexample :
    matchesSpec "abc".toList " abc ".toList = true ∧
    matchesCode "abc".toList " abc ".toList = false ∧
    (submitGuess 1 "abc".toList 5 c3Store).1 = Outcome.incorrect := by
  exact ⟨by decide, by decide, by decide⟩

/-- C3 amended: guess evaluation is
`pyLower (pyStrip guess) == pyLower phrase` — the guess is trimmed and
lowercased but the stored phrase is only lowercased; whenever the stored
phrase is already trimmed (which holds for every reachable secret), this
coincides with the spec's total function
`pyLower (pyStrip guess) == pyLower (pyStrip phrase)`. -/
theorem C3_matchesTrimmedPhrase : ∀ (g p : Str),
    pyStrip p = p → matchesCode g p = matchesSpec g p := by
  intro g p hp
  exact matches_agree_of_trimmed g p hp

/-- Witness for C3 at the spec's own scenario inputs. -/
theorem C3_matchesTrimmedPhrase_witness :
    matchesCode " OPEN SESAME ".toList DEFAULT_SECRET_PHRASE =
      matchesSpec " OPEN SESAME ".toList DEFAULT_SECRET_PHRASE :=
  C3_matchesTrimmedPhrase " OPEN SESAME ".toList DEFAULT_SECRET_PHRASE (by decide)

/-! ### How each public operation changes the secrets collection -/

theorem resetRoute_secrets (u now : Nat) (st : Store) :
    (resetRoute u now st).2.secrets = st.secrets := by
  unfold resetRoute
  rcases h : getActiveSecret st.secrets with _ | a
  · rfl
  · exact updateStateWith_secrets u _ _ st

theorem gameStateRoute_secrets (u now : Nat) (st : Store) :
    (gameStateRoute u now st).2.secrets = st.secrets ∨
    (getActiveSecret st.secrets = none ∧
     (gameStateRoute u now st).2.secrets =
       st.secrets ++ [⟨st.nextId, DEFAULT_SECRET_PHRASE, DEFAULT_SECRET_HINT, now, none, 0, none⟩]) := by
  unfold gameStateRoute
  rcases hA : getActiveSecret st.secrets with _ | a
  · right
    refine ⟨rfl, ?_⟩
    dsimp only
    unfold createDefaultSecretOp
    rw [getActive_none_filter hA]
    dsimp only [List.head?]
    rw [resolve_secrets]
  · left
    dsimp only
    rw [resolve_secrets]

theorem submitGuess_secrets (u : Nat) (g : Str) (now : Nat) (st : Store) :
    (submitGuess u g now st).2.secrets = st.secrets ∨
    (∃ sid, (submitGuess u g now st).2.secrets = markSecretSolved now sid st.secrets) ∨
    (∃ sid, (submitGuess u g now st).2.secrets = incrementWrongGuesses sid st.secrets) := by
  unfold submitGuess
  rcases hA : getActiveSecret st.secrets with _ | a
  · left; rfl
  · dsimp only
    by_cases hle : (getOrCreateState u now st a).1.attempts_left ≤ 0
    · rw [if_pos hle]
      left
      exact resolve_secrets u now st a
    · rw [if_neg hle]
      by_cases hm : (pyLower (pyStrip g) == pyLower a.secret_phrase) = true
      · rw [if_pos hm]
        right; left
        refine ⟨a.secret_id, ?_⟩
        rw [updateStateWith_secrets]
        show markSecretSolved now a.secret_id (getOrCreateState u now st a).2.secrets =
          markSecretSolved now a.secret_id st.secrets
        rw [resolve_secrets]
      · rw [if_neg hm]
        by_cases hz : (getOrCreateState u now st a).1.attempts_left - 1 = 0
        · rw [if_pos hz]
          right; right
          refine ⟨a.secret_id, ?_⟩
          rw [updateStateWith_secrets]
          show incrementWrongGuesses a.secret_id (getOrCreateState u now st a).2.secrets =
            incrementWrongGuesses a.secret_id st.secrets
          rw [resolve_secrets]
        · rw [if_neg hz]
          right; right
          refine ⟨a.secret_id, ?_⟩
          rw [updateStateWith_secrets]
          show incrementWrongGuesses a.secret_id (getOrCreateState u now st a).2.secrets =
            incrementWrongGuesses a.secret_id st.secrets
          rw [resolve_secrets]

theorem createSecretRoute_secrets (u : Nat) (p ht : Str) (now : Nat) (st : Store) :
    (createSecretRoute u p ht now st).2.secrets = st.secrets ∨
    (createSecretRoute u p ht now st).2.secrets =
      st.secrets ++ [⟨st.nextId, pyStrip p, pyStrip ht, now, some u, 0, none⟩] := by
  unfold createSecretRoute
  rcases h : st.states u with _ | gs
  · left; rfl
  · dsimp only
    by_cases hflag : (!gs.can_create_secret) = true
    · rw [if_pos hflag]; left; rfl
    · rw [if_neg hflag]
      by_cases e1 : (pyStrip p).isEmpty = true
      · rw [if_pos e1]; left; rfl
      · rw [if_neg e1]
        by_cases e2 : (pyStrip ht).isEmpty = true
        · rw [if_pos e2]; left; rfl
        · rw [if_neg e2]
          by_cases e3 : (pyStrip p).length < 3
          · rw [if_pos e3]; left; rfl
          · rw [if_neg e3]
            by_cases e4 : (pyStrip ht).length < 5
            · rw [if_pos e4]; left; rfl
            · rw [if_neg e4]
              right
              rw [updateStateWith_secrets]

/-! ### Claim C10 -/

theorem mem_updateFirstSecret {p : Secret → Bool} {f : Secret → Secret} :
    ∀ {l : List Secret} {x : Secret}, x ∈ updateFirstSecret p f l →
      x ∈ l ∨ ∃ y ∈ l, x = f y := by
  intro l
  induction l with
  | nil => intro x hx; cases hx
  | cons s rest ih =>
      intro x hx
      unfold updateFirstSecret at hx
      by_cases hp : p s = true
      · rw [if_pos hp] at hx
        rcases List.mem_cons.mp hx with h | h
        · exact Or.inr ⟨s, List.mem_cons_self s rest, h⟩
        · exact Or.inl (List.mem_cons_of_mem s h)
      · rw [if_neg hp] at hx
        rcases List.mem_cons.mp hx with h | h
        · subst h
          exact Or.inl (List.mem_cons_self x rest)
        · rcases ih h with h' | ⟨y, hy, hxy⟩
          · exact Or.inl (List.mem_cons_of_mem s h')
          · exact Or.inr ⟨y, List.mem_cons_of_mem s hy, hxy⟩

theorem trimmed_markSolved (now sid : Nat) {l : List Secret}
    (ht : trimmedSecrets l) : trimmedSecrets (markSecretSolved now sid l) := by
  intro x hx
  rcases mem_updateFirstSecret hx with h | ⟨y, hy, rfl⟩
  · exact ht x h
  · exact ht y hy

theorem trimmed_increment (sid : Nat) {l : List Secret}
    (ht : trimmedSecrets l) : trimmedSecrets (incrementWrongGuesses sid l) := by
  intro x hx
  rcases mem_updateFirstSecret hx with h | ⟨y, hy, rfl⟩
  · exact ht x h
  · exact ht y hy

theorem trimmed_append {l : List Secret} {d : Secret} (ht : trimmedSecrets l)
    (hd1 : pyStrip d.secret_phrase = d.secret_phrase)
    (hd2 : pyStrip d.hint = d.hint) :
    trimmedSecrets (l ++ [d]) := by
  intro x hx
  rcases List.mem_append.mp hx with h | h
  · exact ht x h
  · rcases List.mem_singleton.mp h with rfl
    exact ⟨hd1, hd2⟩

/-- Every public operation preserves the all-secrets-trimmed invariant. -/
theorem stepPreservesTrimmed {st st' : Store} (h : Step st st')
    (ht : trimmedSecrets st.secrets) : trimmedSecrets st'.secrets := by
  cases h with
  | gameStateQ u now =>
      rcases gameStateRoute_secrets u now st with he | ⟨_, he⟩
      · rw [he]; exact ht
      · rw [he]
        exact trimmed_append ht
          (show pyStrip DEFAULT_SECRET_PHRASE = DEFAULT_SECRET_PHRASE from by decide)
          (show pyStrip DEFAULT_SECRET_HINT = DEFAULT_SECRET_HINT from by decide)
  | guess u g now =>
      rcases submitGuess_secrets u g now st with he | ⟨sid, he⟩ | ⟨sid, he⟩
      · rw [he]; exact ht
      · rw [he]; exact trimmed_markSolved now sid ht
      · rw [he]; exact trimmed_increment sid ht
  | rotate u p hh now =>
      rcases createSecretRoute_secrets u p hh now st with he | he
      · rw [he]; exact ht
      · rw [he]
        exact trimmed_append ht (pyStrip_idem p) (pyStrip_idem hh)
  | resetQ u now =>
      rw [resetRoute_secrets]; exact ht

theorem reachableTrimmed {st : Store} (h : Reachable st) :
    trimmedSecrets st.secrets := by
  induction h with
  | refl =>
      intro s hs
      rcases List.mem_singleton.mp hs with rfl
      exact ⟨by decide, by decide⟩
  | tail hsteps hstep ih => exact stepPreservesTrimmed hstep ih

/-- C10: every Secret the program ever stores has its phrase and hint equal
to their trimmed forms — the built-in default secret carries no surrounding
whitespace and rotation strips before inserting — and consequently, on
every reachable secret, comparing the trimmed lowercased guess with the
stored phrase lowercased without trimming agrees with trimming both
sides. -/
theorem C10_storedSecretsTrimmed : ∀ (st : Store), Reachable st →
    ∀ s ∈ st.secrets,
    pyStrip s.secret_phrase = s.secret_phrase ∧ pyStrip s.hint = s.hint ∧
    ∀ g, matchesCode g s.secret_phrase = matchesSpec g s.secret_phrase := by
  intro st h s hs
  have ht := reachableTrimmed h s hs
  exact ⟨ht.1, ht.2, fun g => matches_agree_of_trimmed g s.secret_phrase ht.1⟩

/-- Witness for C10 at the startup store and its default secret. -/
theorem C10_storedSecretsTrimmed_witness :
    (pyStrip secA.secret_phrase = secA.secret_phrase ∧
     pyStrip secA.hint = secA.hint) ∧
    matchesCode "open sesame".toList secA.secret_phrase =
      matchesSpec "open sesame".toList secA.secret_phrase := by
  have h := C10_storedSecretsTrimmed initStore Relation.ReflTransGen.refl secA (by decide)
  exact ⟨⟨h.1, h.2.1⟩, h.2.2 "open sesame".toList⟩

/-! ### Claim C1 -/

theorem length_filter_updateFirst_le (p : Secret → Bool) (f : Secret → Secret)
    (q : Secret → Bool) (hf : ∀ s, q (f s) = true → q s = true) :
    ∀ (l : List Secret),
      ((updateFirstSecret p f l).filter q).length ≤ (l.filter q).length := by
  intro l
  induction l with
  | nil => exact Nat.le_refl 0
  | cons x xs ih =>
      unfold updateFirstSecret
      by_cases hp : p x = true
      · rw [if_pos hp]
        rw [List.filter_cons, List.filter_cons]
        by_cases hq : q (f x) = true
        · rw [if_pos hq, if_pos (hf x hq)]
          simp only [List.length_cons]
          omega
        · rw [if_neg hq]
          by_cases hqx : q x = true
          · rw [if_pos hqx]
            simp only [List.length_cons]
            omega
          · rw [if_neg hqx]
      · rw [if_neg hp]
        rw [List.filter_cons, List.filter_cons]
        by_cases hqx : q x = true
        · rw [if_pos hqx, if_pos hqx]
          simp only [List.length_cons]
          omega
        · rw [if_neg hqx, if_neg hqx]
          exact ih

theorem length_filter_updateFirst_eq (p : Secret → Bool) (f : Secret → Secret)
    (q : Secret → Bool) (hf : ∀ s, q (f s) = q s) :
    ∀ (l : List Secret),
      ((updateFirstSecret p f l).filter q).length = (l.filter q).length := by
  intro l
  induction l with
  | nil => rfl
  | cons x xs ih =>
      unfold updateFirstSecret
      by_cases hp : p x = true
      · rw [if_pos hp]
        rw [List.filter_cons, List.filter_cons, hf x]
        by_cases hqx : q x = true
        · rw [if_pos hqx, if_pos hqx]
          simp only [List.length_cons]
        · rw [if_neg hqx, if_neg hqx]
      · rw [if_neg hp]
        rw [List.filter_cons, List.filter_cons]
        by_cases hqx : q x = true
        · rw [if_pos hqx, if_pos hqx]
          simp only [List.length_cons]
          omega
        · rw [if_neg hqx, if_neg hqx]
          exact ih

theorem activeCount_submit_le (u : Nat) (g : Str) (now : Nat) (st : Store) :
    activeCount (submitGuess u g now st).2 ≤ activeCount st := by
  rcases submitGuess_secrets u g now st with he | ⟨sid, he⟩ | ⟨sid, he⟩
  · unfold activeCount
    rw [he]
  · unfold activeCount
    rw [he]
    exact length_filter_updateFirst_le (fun s => s.secret_id == sid)
      (fun s => { s with solved_at := some now })
      (fun s => s.solved_at.isNone)
      (fun s h => by simp at h) st.secrets
  · unfold activeCount
    rw [he]
    exact Nat.le_of_eq (length_filter_updateFirst_eq (fun s => s.secret_id == sid)
      (fun s => { s with wrong_guesses := s.wrong_guesses + 1 })
      (fun s => s.solved_at.isNone)
      (fun s => rfl) st.secrets)

theorem activeCount_reset (u now : Nat) (st : Store) :
    activeCount (resetRoute u now st).2 = activeCount st := by
  unfold activeCount
  rw [resetRoute_secrets]

theorem activeCount_gameState_le (u now : Nat) (st : Store)
    (h : activeCount st ≤ 1) :
    activeCount (gameStateRoute u now st).2 ≤ 1 := by
  rcases gameStateRoute_secrets u now st with he | ⟨hn, he⟩
  · unfold activeCount at h ⊢
    rw [he]
    exact h
  · unfold activeCount
    rw [he, List.filter_append, getActive_none_filter hn, List.nil_append]
    simp

theorem activeCount_rotate_le (u : Nat) (p ht : Str) (now : Nat) (st : Store)
    (h0 : activeCount st = 0) :
    activeCount (createSecretRoute u p ht now st).2 ≤ 1 := by
  rcases createSecretRoute_secrets u p ht now st with he | he
  · unfold activeCount at h0 ⊢
    rw [he]
    omega
  · unfold activeCount at h0 ⊢
    rw [he, List.filter_append, List.length_eq_zero.mp h0, List.nil_append]
    simp

/-- C1 counterexample: a reachable state with two simultaneously active
secrets. User 1 solves the default secret; a game-state query by user 2
creates a fresh default secret because none is active; user 1, whose
rotation flag is still set, then rotates — `create_secret` checks only the
flag, not whether an active secret already exists — leaving two unsolved
secrets in the store. -/
theorem C1_twoActiveSecrets_counterexample :
    Reachable c1s3 ∧ activeCount c1s3 = 2 ∧ ¬ activeCount c1s3 ≤ 1 := by
  refine ⟨?_, by decide, by decide⟩
  have h1 : Step initStore c1s1 := Step.guess 1 " open sesame ".toList 10 initStore
  have h2 : Step c1s1 c1s2 := Step.gameStateQ 2 20 c1s1
  have h3 : Step c1s2 c1s3 :=
    Step.rotate 1 "ham sandwich".toList "a tasty snack".toList 30 c1s2
  exact Relation.ReflTransGen.tail
    (Relation.ReflTransGen.tail
      (Relation.ReflTransGen.tail Relation.ReflTransGen.refl h1) h2) h3

/-- C1 amended: "at most one active secret" holds for every state reachable
when rotations are only invoked while no secret is active (the situation
the spec describes, where the prior secret was just solved and no
default-secret creation intervened). Without that guard the invariant fails,
as the counterexample shows. -/
theorem C1_atMostOneActiveGuarded : ∀ (st : Store), ReachableG st → activeCount st ≤ 1 := by
  intro st h
  induction h with
  | refl => decide
  | tail hsteps hstep ih =>
      cases hstep with
      | gameStateQ u now => exact activeCount_gameState_le u now _ ih
      | guess u g now =>
          exact Nat.le_trans (activeCount_submit_le u g now _) ih
      | rotate u p hh now =>
          rename_i h0
          exact activeCount_rotate_le u p hh now _ h0
      | resetQ u now =>
          rw [activeCount_reset]
          exact ih

/-- Witness for the amended C1 at the startup store. -/
theorem C1_atMostOneActiveGuarded_witness : activeCount initStore ≤ 1 :=
  C1_atMostOneActiveGuarded initStore Relation.ReflTransGen.refl

/-! ### Claim C2 -/

/-- C2 counterexample: attempts are not monotonically non-increasing across
consecutive `submit-guess` calls for the same user and the same active
secret. Three wrong guesses drop the attempts to 0 and set a 24-hour lock;
a fourth wrong guess after the lock expiry first restores the attempts to 3
inside `get_or_create_state` and then consumes one, leaving 2 > 0. The
whole trace is reachable and the active secret (id 0) never changes. -/
theorem C2_monotonicity_counterexample :
    Reachable c2s4 ∧
    (getActiveSecret c2s3.secrets).map (fun s => s.secret_id) = some 0 ∧
    (getActiveSecret c2s4.secrets).map (fun s => s.secret_id) = some 0 ∧
    attemptsOf 1 c2s3 = some 0 ∧
    attemptsOf 1 c2s4 = some 2 := by
  refine ⟨?_, by decide, by decide, by decide, by decide⟩
  have h0 : Step initStore c2s0 := Step.gameStateQ 1 0 initStore
  have h1 : Step c2s0 c2s1 := Step.guess 1 "x".toList 0 c2s0
  have h2 : Step c2s1 c2s2 := Step.guess 1 "x".toList 1 c2s1
  have h3 : Step c2s2 c2s3 := Step.guess 1 "x".toList 2 c2s2
  have h4 : Step c2s3 c2s4 := Step.guess 1 "x".toList 86402 c2s3
  exact Relation.ReflTransGen.tail
    (Relation.ReflTransGen.tail
      (Relation.ReflTransGen.tail
        (Relation.ReflTransGen.tail
          (Relation.ReflTransGen.tail Relation.ReflTransGen.refl h0) h1) h2) h3) h4

/-- C2 amended: for a user whose stored state is bound to the active secret,
a `submit-guess` call that does not trigger the lockout-expiry restoration
leaves the stored `attempts_left` less than or equal to its previous value,
and a state already at 0 stays at 0 (the no-op guess). -/
theorem C2_attemptsMonotoneNoExpiry : ∀ (u : Nat) (g : Str) (now : Nat) (st : Store) (a : Secret) (gs : GameState),
    stateOf u st = some gs →
    getActiveSecret st.secrets = some a →
    gs.current_secret_id = some a.secret_id →
    lockoutExpired now gs = false →
    ∀ gs', stateOf u (submitGuess u g now st).2 = some gs' →
      gs'.attempts_left ≤ gs.attempts_left ∧
      (gs.attempts_left = 0 → gs'.attempts_left = 0) := by
  intro u g now st a gs h1 ha h2 h3 gs' h'
  rcases Nat.eq_zero_or_pos gs.attempts_left with hz | hpos
  · have hs := submit_noAttempts_char u g now st a gs ha h1 h2 h3 hz
    rw [hs] at h'
    have h'' : some gs = some gs' := h1.symm.trans h'
    obtain rfl := Option.some.inj h''
    exact ⟨Nat.le_refl _, fun h => h⟩
  · by_cases hm : matchesCode g a.secret_phrase = true
    · have hs := submit_correct_char u g now st a gs ha h1 h2 hpos hm
      rw [hs] at h'
      have h'' := (setState_states_self u _ _).symm.trans h'
      obtain rfl := Option.some.inj h''
      exact ⟨Nat.sub_le _ _, fun h0 => absurd h0 (by omega)⟩
    · have hm' : matchesCode g a.secret_phrase = false := Bool.eq_false_iff.mpr hm
      rcases Nat.lt_or_ge gs.attempts_left 2 with hlt | hge
      · have h1a : gs.attempts_left = 1 := by omega
        have hs := submit_wrong_lock_char u g now st a gs ha h1 h2 h1a hm'
        rw [hs] at h'
        have h'' := (setState_states_self u _ _).symm.trans h'
        obtain rfl := Option.some.inj h''
        exact ⟨Nat.zero_le _, fun _ => rfl⟩
      · have hs := submit_wrong_nolock_char u g now st a gs ha h1 h2 hge hm'
        rw [hs] at h'
        have h'' := (setState_states_self u _ _).symm.trans h'
        obtain rfl := Option.some.inj h''
        exact ⟨Nat.sub_le _ _, fun h0 => absurd h0 (by omega)⟩

/-- Witness for the amended C2: a wrong guess from 3 attempts leaves 2. -/
theorem C2_attemptsMonotoneNoExpiry_witness :
    ((⟨some 0, 2, some GuessResult.incorrect, some (pyStrip "q".toList), false, none⟩ : GameState).attempts_left
      ≤ c2wgs.attempts_left) ∧
    (c2wgs.attempts_left = 0 →
      (⟨some 0, 2, some GuessResult.incorrect, some (pyStrip "q".toList), false, none⟩ : GameState).attempts_left = 0) :=
  C2_attemptsMonotoneNoExpiry 1 "q".toList 3 c2wStore secA c2wgs rfl rfl rfl rfl
    ⟨some 0, 2, some GuessResult.incorrect, some (pyStrip "q".toList), false, none⟩
    (by decide)

end Codebreaker
